import Mathlib

/-!
Verification of the InfoStream digest pipeline (`infoStreamDigest.py`,
`news/utils.py`, `config.py`) against its natural-language specification.

The Python code is shallowly embedded: every operation that returns either a
value or an error string is modelled as `Except String _` or as a pair of
`Option`s, mirroring the `(value, error)` tuples of the source; network
interactions (the news/weather/stock providers, the Jinja template renderer
and the Brevo notifier) are parameters of the functions that call them, so a
theorem quantifying over them covers every provider behaviour.  Database rows
are plain structures and the two SQLAlchemy queries are list joins; the only
write the source performs (the bulk `isImmediate` reset) is modelled as an
explicit state transformation together with an operation log.
-/

namespace InfoStream

instance {ε α : Type} [DecidableEq ε] [DecidableEq α] : DecidableEq (Except ε α) := fun a b =>
  match a, b with
  | .error e, .error f => decidable_of_iff (e = f) (by simp)
  | .error _, .ok _ => isFalse (by simp)
  | .ok _, .error _ => isFalse (by simp)
  | .ok x, .ok y => decidable_of_iff (x = y) (by simp)

/-! ## config.py -/

/-- config.py line 16: cap on the number of articles kept per digest. -/
def MAX_ARTICLES : Nat := 10

/-- config.py line 17: minimum length of the stripped article text. -/
def MIN_ARTICLE_WORDS : Nat := 50

/-! ## news/utils.py -/

/-- One raw article dict as returned by the NewsAPI client, together with the
outcome of the `newspaper.Article` download/parse for its URL.  A field whose
key is absent from the dict, or present with value `None`, is modelled as
`none`; a `url` value that is not a string is also modelled as `none` (the
source treats all of these alike).  `scrape` is `.ok text` when
`Article(url).download(); parse()` succeeds and `.error msg` when it raises. -/
structure RawArticle where
  url : Option String
  title : Option String
  author : Option String
  publishedAt : Option String
  description : Option String
  scrape : Except String String
deriving Repr, DecidableEq

/-- The `article_info` dict built for each kept article
(news/utils.py lines 124-131). -/
structure ArticleInfo where
  url : String
  title : String
  authors : String
  publish_date : String
  summary : String
  text : String
deriving Repr, DecidableEq

/-- Python `str.strip()`: drop whitespace from both ends of the string. -/
def pyStrip (s : String) : String :=
  ⟨((s.data.dropWhile Char.isWhitespace).reverse.dropWhile Char.isWhitespace).reverse⟩

/-- The `article_info` construction of news/utils.py lines 98-131: metadata
defaults from `.get`, `publishedAt` truncated to `YYYY-MM-DD` when it is a
non-empty string other than `'Unknown'`. -/
def mkArticleInfo (article : RawArticle) (url text : String) : ArticleInfo :=
  let published_at := article.publishedAt.getD "Unknown"
  let publish_date :=
    if published_at ≠ "" ∧ published_at ≠ "Unknown" then published_at.take 10
    else "Unknown"
  { url := url
    title := article.title.getD "No Title"
    authors := article.author.getD "Unknown"
    publish_date := publish_date
    summary := article.description.getD "No description available"
    text := text }

/-- The article loop of news/utils.py lines 86-139: stop once `MAX_ARTICLES`
are collected, skip articles with a missing/invalid/empty URL, skip articles
whose scrape fails, and skip articles whose text is empty or whose stripped
text is shorter than `MIN_ARTICLE_WORDS`. -/
def collectArticles : List RawArticle → List ArticleInfo → List ArticleInfo
  | [], article_content => article_content
  | article :: rest, article_content =>
    if MAX_ARTICLES ≤ article_content.length then article_content
    else
      match article.url with
      | none => collectArticles rest article_content
      | some url =>
        if url = "" then collectArticles rest article_content
        else
          match article.scrape with
          | .error _ => collectArticles rest article_content
          | .ok text =>
            if text = "" ∨ (pyStrip text).length < MIN_ARTICLE_WORDS then
              collectArticles rest article_content
            else
              collectArticles rest (article_content ++ [mkArticleInfo article url text])

/-- news/utils.py `get_top_10_news`, with the `get_news_content` call (a
network interaction) abstracted into the argument: `.error e` models
`get_news_content` returning an error, `.ok articles` models it returning the
article list.  The Python function returns either an error string or a
non-empty article list; this is modelled as `Except String _`. -/
def get_top_10_news (fetched : Except String (List RawArticle)) :
    Except String (List ArticleInfo) :=
  match fetched with
  | .error e => .error e
  | .ok articles =>
    if articles.isEmpty then .error "No articles found for this topic"
    else if (collectArticles articles []).isEmpty then
      .error "Could not fetch any valid articles. Please try again later."
    else .ok (collectArticles articles [])

lemma collectArticles_inv (articles : List RawArticle) (acc : List ArticleInfo)
    (hlen : acc.length ≤ MAX_ARTICLES)
    (hgood : ∀ art ∈ acc, art.url ≠ "" ∧ MIN_ARTICLE_WORDS ≤ (pyStrip art.text).length) :
    (collectArticles articles acc).length ≤ MAX_ARTICLES ∧
      ∀ art ∈ collectArticles articles acc,
        art.url ≠ "" ∧ MIN_ARTICLE_WORDS ≤ (pyStrip art.text).length := by
  induction articles generalizing acc with
  | nil => exact ⟨hlen, hgood⟩
  | cons article rest ih =>
    by_cases hcap : MAX_ARTICLES ≤ acc.length
    · rw [collectArticles, if_pos hcap]
      exact ⟨hlen, hgood⟩
    · cases hurl : article.url with
      | none =>
        simp only [collectArticles, hurl, if_neg hcap]
        exact ih acc hlen hgood
      | some url =>
        cases hscrape : article.scrape with
        | error e =>
          simp only [collectArticles, hurl, hscrape, if_neg hcap]
          by_cases hu : url = ""
          · rw [if_pos hu]
            exact ih acc hlen hgood
          · rw [if_neg hu]
            exact ih acc hlen hgood
        | ok text =>
          simp only [collectArticles, hurl, hscrape, if_neg hcap]
          by_cases hu : url = ""
          · rw [if_pos hu]
            exact ih acc hlen hgood
          · rw [if_neg hu]
            by_cases ht : text = "" ∨ (pyStrip text).length < MIN_ARTICLE_WORDS
            · rw [if_pos ht]
              exact ih acc hlen hgood
            · rw [if_neg ht]
              push_neg at ht
              apply ih
              · rw [List.length_append]
                simp only [List.length_singleton]
                omega
              · intro art hart
                rcases List.mem_append.mp hart with hmem | hmem
                · exact hgood art hmem
                · rw [List.mem_singleton] at hmem
                  subst hmem
                  exact ⟨hu, ht.2⟩

/-- C9: for every provider response, `get_top_10_news` returns either an
error string or a list of article records of length at most
`MAX_ARTICLES = 10` in which every article has a non-empty URL and stripped
body text of length at least `MIN_ARTICLE_WORDS = 50`; articles with
missing/invalid URLs or too-short text are dropped rather than included. -/
theorem get_top_10_news_bounded (fetched : Except String (List RawArticle))
    (l : List ArticleInfo) (h : get_top_10_news fetched = .ok l) :
    l.length ≤ MAX_ARTICLES ∧
      ∀ art ∈ l, art.url ≠ "" ∧ MIN_ARTICLE_WORDS ≤ (pyStrip art.text).length := by
  cases fetched with
  | error e => simp [get_top_10_news] at h
  | ok articles =>
    by_cases he : articles.isEmpty
    · simp [get_top_10_news, he] at h
    · by_cases hc : (collectArticles articles []).isEmpty
      · simp [get_top_10_news, he, hc] at h
      · simp [get_top_10_news, he, hc] at h
        subst h
        exact collectArticles_inv articles []
          (by simp [MAX_ARTICLES]) (by simp)

/-- A concrete scraped body text that clears the fifty-character minimum. -/
def sampleText : String :=
  "A sufficiently long article body text that clears the fifty character minimum."

/-- A concrete well-formed provider article. -/
def sampleRaw : RawArticle :=
  { url := some "http://example.com/a"
    title := some "Title"
    author := some "Author"
    publishedAt := some "2024-01-02T03:04:05Z"
    description := some "Desc"
    scrape := .ok sampleText }

/-- Witness for C9: the theorem instantiated on a one-article response. -/
theorem get_top_10_news_bounded_witness :
    [mkArticleInfo sampleRaw "http://example.com/a" sampleText].length ≤ MAX_ARTICLES ∧
      ∀ art ∈ [mkArticleInfo sampleRaw "http://example.com/a" sampleText],
        art.url ≠ "" ∧ MIN_ARTICLE_WORDS ≤ (pyStrip art.text).length :=
  get_top_10_news_bounded (.ok [sampleRaw]) _ (by decide)

/-! ## Weather and stock provider results (weather/utils.py, stock/utils.py) -/

/-- The `weather_info` dict (weather/utils.py lines 44-57).  Temperatures and
humidity are numbers in the source; the orchestrator never inspects them, so
they are embedded as integers. -/
structure WeatherInfo where
  status : String
  temp : Int
  feels_like : Int
  humidity : Int
deriving Repr, DecidableEq

/-- The dict returned by a successful `get_weather_api` call
(weather/utils.py lines 37-40); both keys are always present on success. -/
structure WeatherData where
  weather_info : WeatherInfo
  weather_icon_url : String
deriving Repr, DecidableEq

/-- One entry of the stock snapshot list (stock/utils.py lines 29-32). -/
structure StockInfo where
  name : String
  info : List String
deriving Repr, DecidableEq

/-! ## infoStreamDigest.py: digest generation and per-pair delivery -/

/-- Failure modes of the template-render step of `_generate_html`
(infoStreamDigest.py lines 163-171): a missing template file
(`FileNotFoundError`, line 176), a missing expected field in the combined
data (`KeyError`, line 181), or any other exception (line 186). -/
inductive RenderErr where
  | templateNotFound (msg : String)
  | missingField (msg : String)
  | other (msg : String)
deriving Repr, DecidableEq

/-- infoStreamDigest.py `_generate_html` (lines 112-189).  The three provider
calls are arguments: `.error e` models the Python call returning an error
string (the `isinstance(x, str)` checks), `.ok v` models it returning data.
`render` models `env.get_template(HTML_TEMPLATE)` followed by
`template.render(...)`: `.ok html` on success, `.error _` when the step
raises one of the three handled exception kinds.  The result is the
`(rendered_html, error_message)` tuple of the source. -/
def generate_html
    (news_data : Except String (List ArticleInfo))
    (weather_data : Except String WeatherData)
    (stock_data : Except String (List StockInfo))
    (render : List ArticleInfo → WeatherInfo → String → List StockInfo →
      Except RenderErr String) :
    Option String × Option String :=
  match news_data with
  | .error e => (none, some ("News API error: " ++ e))
  | .ok nd =>
    if nd.isEmpty then (none, some "No news articles available")
    else
      match weather_data with
      | .error e => (none, some ("Weather API error: " ++ e))
      | .ok wd =>
        match stock_data with
        | .error e => (none, some ("Stock API error: " ++ e))
        | .ok sd =>
          match render nd wd.weather_info wd.weather_icon_url sd with
          | .ok rendered_html => (some rendered_html, none)
          | .error (.templateNotFound m) =>
            (none, some ("Template file not found: " ++ m))
          | .error (.missingField m) =>
            (none, some ("Missing required data field: " ++ m))
          | .error (.other m) =>
            (none, some ("Error generating HTML: " ++ m))

/-- infoStreamDigest.py `send_email_to_user` (lines 191-245), for one
(user, topic) pair.  `notifier` models `html_email.send_html_content`
(to_email, subject, html_content ↦ (success message or None, error or None));
the Python `subject` applies `str.title()` to the topic, a formatting detail
with no control-flow role, so the subject is embedded as the plain topic.
Returns the `(success, error_message)` tuple of the source together with the
number of times the notifier was invoked. -/
def send_email_to_user
    (news_data : Except String (List ArticleInfo))
    (weather_data : Except String WeatherData)
    (stock_data : Except String (List StockInfo))
    (render : List ArticleInfo → WeatherInfo → String → List StockInfo →
      Except RenderErr String)
    (notifier : String → String → Option String → Option String × Option String)
    (user_email news_topic : String) :
    (Bool × Option String) × Nat :=
  match generate_html news_data weather_data stock_data render with
  | (_, some html_error) => ((false, some html_error), 0)
  | (rendered_html, none) =>
    let sent := notifier user_email ("Your " ++ news_topic ++ " News Digest")
      rendered_html
    match sent.1 with
    | none => ((false, sent.2), 1)
    | some _ => ((true, none), 1)

/-- Every run of `_generate_html` either produces a full rendered document
with no error, or no document with an error description — never a partial
result. -/
lemma generate_html_total
    (news_data : Except String (List ArticleInfo))
    (weather_data : Except String WeatherData)
    (stock_data : Except String (List StockInfo))
    (render : List ArticleInfo → WeatherInfo → String → List StockInfo →
      Except RenderErr String) :
    (∃ html, generate_html news_data weather_data stock_data render =
      (some html, none)) ∨
      (∃ msg, generate_html news_data weather_data stock_data render =
        (none, some msg)) := by
  cases news_data with
  | error e => exact .inr ⟨_, rfl⟩
  | ok nd =>
    by_cases hnd : nd.isEmpty
    · right
      simp [generate_html, hnd]
    · cases weather_data with
      | error e =>
        right
        simp [generate_html, hnd]
      | ok wd =>
        cases stock_data with
        | error e =>
          right
          simp [generate_html, hnd]
        | ok sd =>
          cases hr : render nd wd.weather_info wd.weather_icon_url sd with
          | ok html =>
            left
            simp [generate_html, hnd, hr]
          | error k =>
            cases k <;> (right ; simp [generate_html, hnd, hr])

/-- C5: if any of the three data sources returns an error, digest generation
returns `(none, error-description)` — no partial document — and
`send_email_to_user` reports that failure without ever invoking the notifier
(invocation count 0); and whenever the notifier was invoked at all, a fully
rendered document existed. -/
theorem provider_error_short_circuits
    (news_data : Except String (List ArticleInfo))
    (weather_data : Except String WeatherData)
    (stock_data : Except String (List StockInfo))
    (render : List ArticleInfo → WeatherInfo → String → List StockInfo →
      Except RenderErr String)
    (notifier : String → String → Option String → Option String × Option String)
    (user_email news_topic : String) :
    ((∃ e, news_data = .error e) ∨ (∃ e, weather_data = .error e) ∨
        (∃ e, stock_data = .error e) →
      (generate_html news_data weather_data stock_data render).1 = none ∧
      (∃ msg, (generate_html news_data weather_data stock_data render).2 = some msg) ∧
      send_email_to_user news_data weather_data stock_data render notifier
          user_email news_topic =
        ((false, (generate_html news_data weather_data stock_data render).2), 0)) ∧
    ((send_email_to_user news_data weather_data stock_data render notifier
        user_email news_topic).2 ≠ 0 →
      ∃ html, generate_html news_data weather_data stock_data render =
        (some html, none)) := by
  constructor
  · intro hfail
    have hshort : (generate_html news_data weather_data stock_data render).1 = none ∧
        ∃ msg, (generate_html news_data weather_data stock_data render).2 = some msg := by
      cases news_data with
      | error e => exact ⟨rfl, _, rfl⟩
      | ok nd =>
        by_cases hnd : nd.isEmpty
        · simp [generate_html, hnd]
        · rcases hfail with ⟨e, he⟩ | ⟨e, he⟩ | ⟨e, he⟩
          · simp at he
          · subst he
            simp [generate_html, hnd]
          · subst he
            cases weather_data with
            | error w => simp [generate_html, hnd]
            | ok w => simp [generate_html, hnd]
    obtain ⟨h1, msg, h2⟩ := hshort
    refine ⟨h1, ⟨msg, h2⟩, ?_⟩
    rw [send_email_to_user]
    rcases hgen : generate_html news_data weather_data stock_data render with ⟨a, b⟩
    rw [hgen] at h2
    cases b with
    | none => simp at h2
    | some m => simp
  · intro hn
    rcases generate_html_total news_data weather_data stock_data render with
      ⟨html, hgen⟩ | ⟨msg, hgen⟩
    · exact ⟨html, hgen⟩
    · rw [send_email_to_user, hgen] at hn
      simp at hn

/-- Sample data used to instantiate theorems with hypotheses. -/
def sampleWeather : WeatherData :=
  { weather_info := { status := "clear sky", temp := 20, feels_like := 19, humidity := 40 }
    weather_icon_url := "http://openweathermap.org/img/wn/01d@2x.png" }

/-- Sample stock snapshot. -/
def sampleStock : List StockInfo :=
  [{ name := "NIFTY 50", info := ["100.00", "1.00", "1.00"] }]

/-- Sample renderer that always succeeds. -/
def sampleRender : List ArticleInfo → WeatherInfo → String → List StockInfo →
    Except RenderErr String := fun _ _ _ _ => .ok "<html></html>"

/-- Sample notifier that always succeeds. -/
def sampleNotifier : String → String → Option String → Option String × Option String :=
  fun _ _ _ => (some "Email sent successfully", none)

/-- Witness for C5: on a failing news provider, generation yields no document
and an error, and the notifier is never invoked. -/
theorem provider_error_short_circuits_witness :
    (generate_html (.error "boom") (.ok sampleWeather) (.ok sampleStock)
        sampleRender).1 = none ∧
    (∃ msg, (generate_html (.error "boom") (.ok sampleWeather) (.ok sampleStock)
        sampleRender).2 = some msg) ∧
    send_email_to_user (.error "boom") (.ok sampleWeather) (.ok sampleStock)
        sampleRender sampleNotifier "u@example.com" "technology" =
      ((false, (generate_html (.error "boom") (.ok sampleWeather) (.ok sampleStock)
        sampleRender).2), 0) :=
  (provider_error_short_circuits (.error "boom") (.ok sampleWeather)
    (.ok sampleStock) sampleRender sampleNotifier "u@example.com" "technology").1
    (.inl ⟨"boom", rfl⟩)

/-! ## Distinctness of error kinds (for C6 and C10) -/

lemma append_ne_of_take_ne (p m t : String) (n : Nat) (h1 : n ≤ p.data.length)
    (h : p.data.take n ≠ t.data.take n) : p ++ m ≠ t := by
  intro he
  apply h
  have hd : (p ++ m).data = p.data ++ m.data := String.data_append p m
  have hx : (p.data ++ m.data).take n = t.data.take n := by rw [← hd, he]
  rwa [List.take_append_eq_append_take, Nat.sub_eq_zero_of_le h1, List.take_zero,
    List.append_nil] at hx

lemma append_ne_append_of_take_ne (p m q e : String) (n : Nat)
    (h1 : n ≤ p.data.length) (h2 : n ≤ q.data.length)
    (h : p.data.take n ≠ q.data.take n) : p ++ m ≠ q ++ e := by
  intro he
  apply h
  have hd1 : (p ++ m).data = p.data ++ m.data := String.data_append p m
  have hd2 : (q ++ e).data = q.data ++ e.data := String.data_append q e
  have hx : (p.data ++ m.data).take n = (q.data ++ e.data).take n := by
    rw [← hd1, ← hd2, he]
  rwa [List.take_append_eq_append_take, List.take_append_eq_append_take,
    Nat.sub_eq_zero_of_le h1, Nat.sub_eq_zero_of_le h2, List.take_zero,
    List.take_zero, List.append_nil, List.append_nil] at hx

/-- C6: a missing template file or a missing expected field yields the
distinct messages `Template file not found: ...` / `Missing required data
field: ...`, and neither can coincide with any error description produced by
a news/weather/stock provider failure (which are `News API error: ...`,
`Weather API error: ...`, `Stock API error: ...`), whatever the embedded
exception and provider texts are. -/
theorem render_failure_distinct_error_kind
    (news_data : Except String (List ArticleInfo))
    (weather_data : Except String WeatherData)
    (stock_data : Except String (List StockInfo))
    (render : List ArticleInfo → WeatherInfo → String → List StockInfo →
      Except RenderErr String) :
    (∀ nd wd sd m, news_data = .ok nd → nd.isEmpty = false →
      weather_data = .ok wd → stock_data = .ok sd →
      render nd wd.weather_info wd.weather_icon_url sd = .error (.templateNotFound m) →
      generate_html news_data weather_data stock_data render =
        (none, some ("Template file not found: " ++ m))) ∧
    (∀ nd wd sd m, news_data = .ok nd → nd.isEmpty = false →
      weather_data = .ok wd → stock_data = .ok sd →
      render nd wd.weather_info wd.weather_icon_url sd = .error (.missingField m) →
      generate_html news_data weather_data stock_data render =
        (none, some ("Missing required data field: " ++ m))) ∧
    (∀ m e : String,
      "Template file not found: " ++ m ≠ "News API error: " ++ e ∧
      "Template file not found: " ++ m ≠ "Weather API error: " ++ e ∧
      "Template file not found: " ++ m ≠ "Stock API error: " ++ e ∧
      "Missing required data field: " ++ m ≠ "News API error: " ++ e ∧
      "Missing required data field: " ++ m ≠ "Weather API error: " ++ e ∧
      "Missing required data field: " ++ m ≠ "Stock API error: " ++ e) := by
  refine ⟨?_, ?_, ?_⟩
  · intro nd wd sd m hn hne hw hs hr
    subst hn
    subst hw
    subst hs
    simp [generate_html, hne, hr]
  · intro nd wd sd m hn hne hw hs hr
    subst hn
    subst hw
    subst hs
    simp [generate_html, hne, hr]
  · intro m e
    refine ⟨?_, ?_, ?_, ?_, ?_, ?_⟩ <;>
      exact append_ne_append_of_take_ne _ _ _ _ 1 (by decide) (by decide) (by decide)

/-- Witness for C6: a missing-template render failure on concrete inputs. -/
theorem render_failure_distinct_error_kind_witness :
    generate_html (.ok [mkArticleInfo sampleRaw "http://example.com/a" sampleText])
        (.ok sampleWeather) (.ok sampleStock)
        (fun _ _ _ _ => .error (.templateNotFound "index-v2.html")) =
      (none, some ("Template file not found: " ++ "index-v2.html")) :=
  (render_failure_distinct_error_kind _ _ _ _).1
    [mkArticleInfo sampleRaw "http://example.com/a" sampleText]
    sampleWeather sampleStock "index-v2.html" rfl rfl rfl rfl rfl

/-- C10 (implicit): `get_top_10_news` never returns an empty list — both the
no-articles case and the all-articles-filtered case return error strings —
so the orchestrator's `No news articles available` branch in `_generate_html`
can never fire on a news result produced by `get_top_10_news`. -/
theorem news_empty_branch_unreachable
    (fetched : Except String (List RawArticle))
    (weather_data : Except String WeatherData)
    (stock_data : Except String (List StockInfo))
    (render : List ArticleInfo → WeatherInfo → String → List StockInfo →
      Except RenderErr String) :
    (∀ l, get_top_10_news fetched = .ok l → l ≠ []) ∧
    (generate_html (get_top_10_news fetched) weather_data stock_data render).2 ≠
      some "No news articles available" := by
  have h1 : ∀ l, get_top_10_news fetched = .ok l → l ≠ [] := by
    intro l h
    cases fetched with
    | error e => simp [get_top_10_news] at h
    | ok articles =>
      by_cases he : articles.isEmpty
      · simp [get_top_10_news, he] at h
      · by_cases hc : (collectArticles articles []).isEmpty
        · simp [get_top_10_news, he, hc] at h
        · simp [get_top_10_news, he, hc] at h
          subst h
          simpa [List.isEmpty_iff] using hc
  refine ⟨h1, ?_⟩
  rcases hres : get_top_10_news fetched with e | l
  · simp only [generate_html, ne_eq, Option.some.injEq]
    exact append_ne_of_take_ne _ _ _ 2 (by decide) (by decide)
  · have hne : l ≠ [] := h1 l hres
    have hisEmpty : l.isEmpty = false := by simpa [List.isEmpty_iff] using hne
    cases weather_data with
    | error e =>
      simp only [generate_html, hisEmpty, Bool.false_eq_true, if_false, ne_eq,
        Option.some.injEq]
      exact append_ne_of_take_ne _ _ _ 1 (by decide) (by decide)
    | ok wd =>
      cases stock_data with
      | error e =>
        simp only [generate_html, hisEmpty, Bool.false_eq_true, if_false, ne_eq,
          Option.some.injEq]
        exact append_ne_of_take_ne _ _ _ 1 (by decide) (by decide)
      | ok sd =>
        cases hr : render l wd.weather_info wd.weather_icon_url sd with
        | ok html => simp [generate_html, hisEmpty, hr]
        | error k =>
          cases k with
          | templateNotFound m =>
            simp only [generate_html, hisEmpty, Bool.false_eq_true, if_false, hr,
              ne_eq, Option.some.injEq]
            exact append_ne_of_take_ne _ _ _ 1 (by decide) (by decide)
          | missingField m =>
            simp only [generate_html, hisEmpty, Bool.false_eq_true, if_false, hr,
              ne_eq, Option.some.injEq]
            exact append_ne_of_take_ne _ _ _ 1 (by decide) (by decide)
          | other m =>
            simp only [generate_html, hisEmpty, Bool.false_eq_true, if_false, hr,
              ne_eq, Option.some.injEq]
            exact append_ne_of_take_ne _ _ _ 1 (by decide) (by decide)

/-- Witness for C10: the theorem instantiated on a one-article response. -/
theorem news_empty_branch_unreachable_witness :
    [mkArticleInfo sampleRaw "http://example.com/a" sampleText] ≠ ([] : List ArticleInfo) :=
  (news_empty_branch_unreachable (.ok [sampleRaw]) (.ok sampleWeather)
    (.ok sampleStock) sampleRender).1
    [mkArticleInfo sampleRaw "http://example.com/a" sampleText] (by decide)

/-! ## infoStreamDigest.py: user selection and grouping -/

/-- One row of the scheduled-path join (infoStreamDigest.py lines 51-65):
UserDetail ⋈ UserSetting ⋈ NewsTopicAndScheduleTime projected onto the seven
selected columns.  The nullable API-key columns are embedded as strings: the
orchestration logic never branches on them. -/
structure QueryRow where
  id : Nat
  email : String
  city : String
  newsApi : String
  weatherApi : String
  newsTopic : String
  deliveryTime : String
deriving Repr, DecidableEq

/-- One value of a grouping dict (`user_data_map` / `users_map`): the user
key, the per-user fields, and the accumulated preference list. -/
structure Grouped (σ π : Type) where
  key : Nat
  stat : σ
  prefs : List π
deriving Repr, DecidableEq

/-- One iteration of the grouping loops (infoStreamDigest.py lines 82-100 and
392-407): initialize the user's entry if unseen — Python dicts preserve
insertion order, modelled by appending — then append the row's preference
entry to that user's list. -/
def addRow {ρ σ π : Type} (key : ρ → Nat) (stat : ρ → σ) (pref : ρ → π)
    (m : List (Grouped σ π)) (r : ρ) : List (Grouped σ π) :=
  let m1 := if m.any (fun g => g.key == key r) then m
    else m ++ [{ key := key r, stat := stat r, prefs := [] }]
  m1.map (fun g =>
    if g.key == key r then { g with prefs := g.prefs ++ [pref r] } else g)

/-- The grouping of joined rows by user id (the whole `for row in results`
loop followed by `list(user_data_map.values())`). -/
def groupByUser {ρ σ π : Type} (key : ρ → Nat) (stat : ρ → σ) (pref : ρ → π)
    (rows : List ρ) : List (Grouped σ π) :=
  rows.foldl (addRow key stat pref) []

/-- First-seen order of a key list: the key order of a Python dict built by
repeated insertion. -/
def firstSeen (l : List Nat) : List Nat :=
  l.foldl (fun acc k => if k ∈ acc then acc else acc ++ [k]) []

lemma mem_foldl_firstSeen (l : List Nat) :
    ∀ (acc : List Nat) (y : Nat),
      (y ∈ l.foldl (fun acc k => if k ∈ acc then acc else acc ++ [k]) acc) ↔
        y ∈ acc ∨ y ∈ l := by
  induction l with
  | nil => simp
  | cons k rest ih =>
    intro acc y
    rw [List.foldl_cons, ih]
    by_cases hk : k ∈ acc
    · simp only [if_pos hk, List.mem_cons]
      aesop
    · simp only [if_neg hk, List.mem_append, List.mem_singleton, List.mem_cons]
      tauto

lemma mem_firstSeen (l : List Nat) (y : Nat) : y ∈ firstSeen l ↔ y ∈ l := by
  rw [firstSeen, mem_foldl_firstSeen]
  simp

lemma nodup_foldl_firstSeen (l : List Nat) :
    ∀ (acc : List Nat), acc.Nodup →
      (l.foldl (fun acc k => if k ∈ acc then acc else acc ++ [k]) acc).Nodup := by
  induction l with
  | nil => exact fun acc h => h
  | cons k rest ih =>
    intro acc hacc
    rw [List.foldl_cons]
    by_cases hk : k ∈ acc
    · rw [if_pos hk]
      exact ih acc hacc
    · rw [if_neg hk]
      refine ih _ ?_
      simp [List.nodup_append, hacc, hk]

lemma firstSeen_nodup (l : List Nat) : (firstSeen l).Nodup :=
  nodup_foldl_firstSeen l [] List.nodup_nil

lemma firstSeen_append_singleton (l : List Nat) (x : Nat) :
    firstSeen (l ++ [x]) =
      if x ∈ firstSeen l then firstSeen l else firstSeen l ++ [x] := by
  simp [firstSeen, List.foldl_append]

lemma any_key_eq {σ π : Type} (m : List (Grouped σ π)) (k : Nat) :
    m.any (fun g => g.key == k) = true ↔ k ∈ m.map Grouped.key := by
  simp only [List.any_eq_true, beq_iff_eq, List.mem_map]

lemma addRow_map_key {ρ σ π : Type} (key : ρ → Nat) (stat : ρ → σ) (pref : ρ → π)
    (m : List (Grouped σ π)) (r : ρ) :
    (addRow key stat pref m r).map Grouped.key =
      if key r ∈ m.map Grouped.key then m.map Grouped.key
      else m.map Grouped.key ++ [key r] := by
  rw [addRow]
  by_cases hany : m.any (fun g => g.key == key r) = true
  · rw [if_pos ((any_key_eq m (key r)).mp hany), if_pos hany]
    rw [List.map_map]
    apply List.map_congr_left
    intro g _
    by_cases hk : g.key == key r
    · simp [Function.comp, hk]
    · simp [Function.comp, hk]
  · have hnot : ¬ key r ∈ m.map Grouped.key := fun hmem =>
      hany ((any_key_eq m (key r)).mpr hmem)
    rw [if_neg hnot, if_neg hany]
    rw [List.map_map, List.map_append]
    congr 1
    · apply List.map_congr_left
      intro g _
      by_cases hk : g.key == key r
      · simp [Function.comp, hk]
      · simp [Function.comp, hk]
    · simp [Function.comp]

lemma addRow_entries {ρ σ π : Type} (key : ρ → Nat) (stat : ρ → σ) (pref : ρ → π)
    (m : List (Grouped σ π)) (r : ρ) (proc : List ρ)
    (h1 : m.map Grouped.key = firstSeen (proc.map key))
    (h2 : ∀ g ∈ m, g.prefs = (proc.filter (fun x => key x == g.key)).map pref ∧
      ∃ x ∈ proc, key x = g.key ∧ stat x = g.stat) :
    ∀ g ∈ addRow key stat pref m r,
      g.prefs = ((proc ++ [r]).filter (fun x => key x == g.key)).map pref ∧
      ∃ x ∈ proc ++ [r], key x = g.key ∧ stat x = g.stat := by
  intro g hg
  rw [addRow] at hg
  by_cases hany : m.any (fun g => g.key == key r) = true
  · rw [if_pos hany] at hg
    obtain ⟨g0, hg0, rfl⟩ := List.mem_map.mp hg
    obtain ⟨hpref0, x0, hx0, hkx0, hsx0⟩ := h2 g0 hg0
    by_cases hk : (g0.key == key r) = true
    · rw [if_pos hk]
      have hkeq : key r = g0.key := (beq_iff_eq.mp hk).symm
      refine ⟨?_, x0, List.mem_append_left _ hx0, hkx0, hsx0⟩
      rw [List.filter_append]
      simp [List.filter_singleton, hkeq, hpref0]
    · rw [if_neg (by simpa using hk)]
      have hne : (key r == g0.key) = false := by
        rw [beq_eq_false_iff_ne]
        intro he
        exact (by simpa using hk : ¬ (g0.key = key r)) he.symm
      refine ⟨?_, x0, List.mem_append_left _ hx0, hkx0, hsx0⟩
      rw [List.filter_append]
      simp [List.filter_singleton, hne, hpref0]
  · rw [if_neg hany] at hg
    have hnot : ¬ key r ∈ m.map Grouped.key := fun hmem =>
      hany ((any_key_eq m (key r)).mpr hmem)
    obtain ⟨g0, hg0, rfl⟩ := List.mem_map.mp hg
    rcases List.mem_append.mp hg0 with hg0m | hg0new
    · have hk : (g0.key == key r) = false := by
        rw [beq_eq_false_iff_ne]
        intro he
        exact hnot (he ▸ List.mem_map_of_mem Grouped.key hg0m)
      rw [hk]
      simp only [Bool.false_eq_true, if_false]
      have hne : (key r == g0.key) = false := by
        rw [beq_eq_false_iff_ne]
        intro he
        exact (beq_eq_false_iff_ne.mp hk) he.symm
      obtain ⟨hpref0, x0, hx0, hkx0, hsx0⟩ := h2 g0 hg0m
      refine ⟨?_, x0, List.mem_append_left _ hx0, hkx0, hsx0⟩
      rw [List.filter_append]
      simp [List.filter_singleton, hne, hpref0]
    · rw [List.mem_singleton] at hg0new
      subst hg0new
      rw [if_pos (by simp)]
      have hfilter : proc.filter (fun x => (key x == key r)) = [] := by
        rw [List.filter_eq_nil_iff]
        intro x hx
        simp only [beq_iff_eq]
        intro he
        apply hnot
        rw [h1, mem_firstSeen]
        exact he ▸ List.mem_map_of_mem key hx
      refine ⟨?_, r, List.mem_append_right _ (List.mem_singleton_self r), rfl, rfl⟩
      rw [List.filter_append]
      simp [List.filter_singleton, hfilter]

lemma groupByUser_foldl_inv {ρ σ π : Type} (key : ρ → Nat) (stat : ρ → σ)
    (pref : ρ → π) (rows : List ρ) :
    ∀ (proc : List ρ) (m : List (Grouped σ π)),
      m.map Grouped.key = firstSeen (proc.map key) →
      (∀ g ∈ m, g.prefs = (proc.filter (fun x => key x == g.key)).map pref ∧
        ∃ x ∈ proc, key x = g.key ∧ stat x = g.stat) →
      (rows.foldl (addRow key stat pref) m).map Grouped.key
          = firstSeen ((proc ++ rows).map key) ∧
      ∀ g ∈ rows.foldl (addRow key stat pref) m,
        g.prefs = ((proc ++ rows).filter (fun x => key x == g.key)).map pref ∧
        ∃ x ∈ proc ++ rows, key x = g.key ∧ stat x = g.stat := by
  induction rows with
  | nil =>
    intro proc m h1 h2
    simpa using ⟨h1, h2⟩
  | cons r rest ih =>
    intro proc m h1 h2
    have hkeys : (addRow key stat pref m r).map Grouped.key =
        firstSeen ((proc ++ [r]).map key) := by
      rw [addRow_map_key, h1, List.map_append, List.map_singleton,
        firstSeen_append_singleton]
    have hentries := addRow_entries key stat pref m r proc h1 h2
    have := ih (proc ++ [r]) (addRow key stat pref m r) hkeys hentries
    rw [List.foldl_cons]
    constructor
    · rw [this.1]
      congr 1
      simp
    · intro g hg
      obtain ⟨hp, x, hx, hkx, hsx⟩ := this.2 g hg
      constructor
      · rw [hp]
        congr 1
        simp
      · exact ⟨x, by simpa using hx, hkx, hsx⟩

/-- The three invariant facts about the grouping of a row list: entry keys
are the distinct row keys in first-seen order, each entry's preference list
is the image of exactly that user's rows in order, and each entry's static
fields come from one of that user's rows. -/
lemma groupByUser_spec {ρ σ π : Type} (key : ρ → Nat) (stat : ρ → σ)
    (pref : ρ → π) (rows : List ρ) :
    (groupByUser key stat pref rows).map Grouped.key = firstSeen (rows.map key) ∧
    ∀ g ∈ groupByUser key stat pref rows,
      g.prefs = (rows.filter (fun x => key x == g.key)).map pref ∧
      ∃ x ∈ rows, key x = g.key ∧ stat x = g.stat := by
  have := groupByUser_foldl_inv key stat pref rows [] [] (by simp [firstSeen]) (by simp)
  simpa [groupByUser] using this

/-- The non-list fields of a `user_data_map` entry
(infoStreamDigest.py lines 87-94). -/
structure UserStat where
  id : Nat
  email : String
  city : String
  news_api_key : String
  weather_api_key : String
deriving Repr, DecidableEq

/-- One `news_preferences` entry (infoStreamDigest.py lines 97-100). -/
structure NewsPref where
  news_topic : String
  delivery_time : String
deriving Repr, DecidableEq

/-- Static fields taken from a joined row (lines 87-94). -/
def rowStat (r : QueryRow) : UserStat :=
  { id := r.id, email := r.email, city := r.city,
    news_api_key := r.newsApi, weather_api_key := r.weatherApi }

/-- Preference entry taken from a joined row (lines 97-100). -/
def rowPref (r : QueryRow) : NewsPref :=
  { news_topic := r.newsTopic, delivery_time := r.deliveryTime }

/-- infoStreamDigest.py `get_users_to_notify` (lines 35-110) given the query
outcome: `.error exc` models the query raising an exception with text `exc`,
`.ok results` models `query.all()` returning `results`.  The output is the
`(user_data, error)` pair of the source. -/
def get_users_to_notify (qres : Except String (List QueryRow)) :
    List (Grouped UserStat NewsPref) × Option String :=
  match qres with
  | .error exc => ([], some ("Database error while fetching users: " ++ exc))
  | .ok results =>
    if results.isEmpty then ([], none)
    else (groupByUser QueryRow.id rowStat rowPref results, none)

/-- C8: grouping a list of joined rows yields exactly one entry per distinct
user id (keys are the distinct row ids, in first-seen order, without
duplicates), each entry carrying that user's identity, city and provider
keys, with a topic-entry list that is exactly the image of that user's rows
in the order the rows were returned.  The consistency hypothesis states the
rows come from a join: rows with equal user ids agree on the per-user
columns. -/
theorem grouping_one_entry_per_user (rows : List QueryRow)
    (hcons : ∀ r1 ∈ rows, ∀ r2 ∈ rows, r1.id = r2.id → rowStat r1 = rowStat r2) :
    (get_users_to_notify (.ok rows)).1 = groupByUser QueryRow.id rowStat rowPref rows ∧
    ((groupByUser QueryRow.id rowStat rowPref rows).map Grouped.key).Nodup ∧
    (∀ uid, uid ∈ (groupByUser QueryRow.id rowStat rowPref rows).map Grouped.key ↔
      uid ∈ rows.map QueryRow.id) ∧
    (∀ g ∈ groupByUser QueryRow.id rowStat rowPref rows,
      (∀ r ∈ rows, r.id = g.key → rowStat r = g.stat) ∧
      g.prefs = (rows.filter (fun r => r.id == g.key)).map rowPref) := by
  obtain ⟨hkeys, hentries⟩ := groupByUser_spec QueryRow.id rowStat rowPref rows
  refine ⟨?_, ?_, ?_, ?_⟩
  · rw [get_users_to_notify]
    by_cases he : rows.isEmpty
    · rw [if_pos he]
      rw [List.isEmpty_iff] at he
      subst he
      rfl
    · rw [if_neg he]
  · rw [hkeys]
    exact firstSeen_nodup _
  · intro uid
    rw [hkeys, mem_firstSeen]
  · intro g hg
    obtain ⟨hpref, x, hx, hkx, hsx⟩ := hentries g hg
    refine ⟨?_, hpref⟩
    intro r hr hrid
    rw [← hsx]
    exact hcons r hr x hx (by rw [hrid, hkx])

/-- Concrete joined rows: user 1 has two topics with user 2's row between
them. -/
def sampleRows : List QueryRow :=
  [{ id := 1, email := "a@x.com", city := "Pune", newsApi := "nk1",
     weatherApi := "wk1", newsTopic := "technology", deliveryTime := "09:00" },
   { id := 2, email := "b@x.com", city := "Mumbai", newsApi := "nk2",
     weatherApi := "wk2", newsTopic := "sports", deliveryTime := "09:00" },
   { id := 1, email := "a@x.com", city := "Pune", newsApi := "nk1",
     weatherApi := "wk1", newsTopic := "health", deliveryTime := "09:00" }]

/-- Witness for C8: the grouping of `sampleRows` has duplicate-free keys. -/
theorem grouping_one_entry_per_user_witness :
    ((groupByUser QueryRow.id rowStat rowPref sampleRows).map Grouped.key).Nodup :=
  (grouping_one_entry_per_user sampleRows (by decide)).2.1

/-! ## infoStreamDigest.py: the scheduled batch path -/

/-- One record of the `errors` list of a batch summary
(infoStreamDigest.py lines 321-325). -/
structure FailRec where
  user_email : String
  news_topic : String
  error : Option String
deriving Repr, DecidableEq

/-- The summary dict returned by `send_emails_batch` (lines 275-334).  The
success-path summary carries no `message` key; this is `message := none`. -/
structure BatchSummary where
  status : String
  message : Option String
  total_users : Nat
  emails_sent : Nat
  emails_failed : Nat
  errors : List FailRec
deriving Repr, DecidableEq

/-- The arguments of one `send_email_to_user` call issued by the batch loop
(lines 309-315). -/
structure SendCall where
  user_email : String
  city : String
  news_api_key : String
  weather_api_key : String
  news_topic : String
deriving Repr, DecidableEq

/-- The nested loop order of lines 299-325: for each grouped user, one call
per news preference. -/
def batchPairs (users : List (Grouped UserStat NewsPref)) : List SendCall :=
  users.flatMap (fun u => u.prefs.map (fun p =>
    { user_email := u.stat.email, city := u.stat.city,
      news_api_key := u.stat.news_api_key,
      weather_api_key := u.stat.weather_api_key,
      news_topic := p.news_topic }))

/-- The accumulation of lines 295-325.  `outcome i` is the
`(success, error)` result of the i-th `send_email_to_user` call of the run
(each call is an independent network interaction).  Returns
`(emails_sent, emails_failed, errors)`. -/
def runBatchCalls (outcome : Nat → Bool × Option String) :
    Nat → List SendCall → Nat × Nat × List FailRec
  | _, [] => (0, 0, [])
  | i, c :: rest =>
    let res := runBatchCalls outcome (i + 1) rest
    if (outcome i).1 then (res.1 + 1, res.2.1, res.2.2)
    else (res.1, res.2.1 + 1,
      { user_email := c.user_email, news_topic := c.news_topic,
        error := (outcome i).2 } :: res.2.2)

/-- infoStreamDigest.py `send_emails_batch` (lines 247-341).  Returns the
summary dict together with the number of `send_email_to_user` calls
issued. -/
def send_emails_batch (qres : Except String (List QueryRow))
    (outcome : Nat → Bool × Option String) : BatchSummary × Nat :=
  match get_users_to_notify qres with
  | (_, some db_error) =>
    ({ status := "error", message := some db_error, total_users := 0,
       emails_sent := 0, emails_failed := 0, errors := [] }, 0)
  | (users, none) =>
    if users.isEmpty then
      ({ status := "success", message := some "No users to notify",
         total_users := 0, emails_sent := 0, emails_failed := 0,
         errors := [] }, 0)
    else
      ({ status :=
          if (runBatchCalls outcome 0 (batchPairs users)).2.1 = 0 then "success"
          else "partial_success",
         message := none,
         total_users := users.length,
         emails_sent := (runBatchCalls outcome 0 (batchPairs users)).1,
         emails_failed := (runBatchCalls outcome 0 (batchPairs users)).2.1,
         errors := (runBatchCalls outcome 0 (batchPairs users)).2.2 },
       (batchPairs users).length)

lemma runBatchCalls_eq (outcome : Nat → Bool × Option String)
    (calls : List SendCall) :
    ∀ i, runBatchCalls outcome i calls =
      ((calls.enumFrom i).countP (fun ic => (outcome ic.1).1),
       (calls.enumFrom i).countP (fun ic => !(outcome ic.1).1),
       (calls.enumFrom i).filterMap (fun ic =>
         if (outcome ic.1).1 then none
         else some ⟨(ic.2).user_email, (ic.2).news_topic, (outcome ic.1).2⟩)) := by
  induction calls with
  | nil => intro i ; rfl
  | cons c rest ih =>
    intro i
    rw [runBatchCalls, ih (i + 1)]
    cases h : (outcome i).1 with
    | true =>
      simp [List.enumFrom, List.countP_cons, List.filterMap_cons, h, Nat.add_comm]
    | false =>
      simp [List.enumFrom, List.countP_cons, List.filterMap_cons, h, Nat.add_comm]

lemma length_filterMap_ite {α β : Type} (p : α → Bool) (g : α → β) (l : List α) :
    (l.filterMap (fun x => if p x then none else some (g x))).length =
      l.countP (fun x => !p x) := by
  induction l with
  | nil => rfl
  | cons x xs ih =>
    by_cases h : p x <;>
      simp [List.filterMap_cons, h, List.countP_cons, ih]

lemma countP_bool_add {α : Type} (p : α → Bool) (l : List α) :
    l.countP p + l.countP (fun x => !p x) = l.length := by
  induction l with
  | nil => rfl
  | cons x xs ih =>
    cases h : p x <;> simp [List.countP_cons, h] <;> omega

/-- The (user, topic) send calls of a scheduled run whose selection returned
the given rows. -/
def dueCalls (rows : List QueryRow) : List SendCall :=
  batchPairs (get_users_to_notify (.ok rows)).1

/-- The number of failing calls of a scheduled run: calls are numbered in
processing order and `outcome` gives each call's result. -/
def failedCount (rows : List QueryRow)
    (outcome : Nat → Bool × Option String) : Nat :=
  ((dueCalls rows).enumFrom 0).countP (fun ic => !(outcome ic.1).1)

lemma groupByUser_ne_nil {ρ σ π : Type} (key : ρ → Nat) (stat : ρ → σ)
    (pref : ρ → π) (rows : List ρ) (hrows : rows ≠ []) :
    groupByUser key stat pref rows ≠ [] := by
  intro hnil
  obtain ⟨hkeys, -⟩ := groupByUser_spec key stat pref rows
  rw [hnil] at hkeys
  rcases rows with - | ⟨r, rest⟩
  · exact hrows rfl
  · have : key r ∈ firstSeen ((r :: rest).map key) := by
      rw [mem_firstSeen]
      exact List.mem_map_of_mem key (List.mem_cons_self r rest)
    rw [← hkeys] at this
    simp at this

/-- C1: for every due-set of N (user, topic) pairs of which F fail, the
scheduled batch path after a successful selection reports
`emails_sent = N - F`, `emails_failed = F`, one failure record per failed
pair, and status `success` exactly when `F = 0`, `partial_success`
otherwise. -/
theorem send_emails_batch_counts (rows : List QueryRow)
    (outcome : Nat → Bool × Option String) :
    (send_emails_batch (.ok rows) outcome).1.emails_sent
        = (dueCalls rows).length - failedCount rows outcome ∧
    (send_emails_batch (.ok rows) outcome).1.emails_failed
        = failedCount rows outcome ∧
    (send_emails_batch (.ok rows) outcome).1.errors.length
        = failedCount rows outcome ∧
    (send_emails_batch (.ok rows) outcome).1.status
        = (if failedCount rows outcome = 0 then "success" else "partial_success") ∧
    ((send_emails_batch (.ok rows) outcome).1.status = "success" ↔
        failedCount rows outcome = 0) := by
  by_cases hrows : rows.isEmpty
  · have hempty : get_users_to_notify (.ok rows) = ([], none) := by
      rw [get_users_to_notify, if_pos hrows]
    have hdue : dueCalls rows = [] := by
      rw [dueCalls, hempty]
      rfl
    have hF : failedCount rows outcome = 0 := by
      rw [failedCount, hdue]
      rfl
    rw [send_emails_batch, hempty]
    simp [hdue, hF]
  · have hne : rows ≠ [] := by
      simpa [List.isEmpty_iff] using hrows
    have husers : get_users_to_notify (.ok rows) =
        (groupByUser QueryRow.id rowStat rowPref rows, none) := by
      rw [get_users_to_notify, if_neg hrows]
    have hgne : ¬ (groupByUser QueryRow.id rowStat rowPref rows).isEmpty := by
      rw [List.isEmpty_iff]
      exact groupByUser_ne_nil QueryRow.id rowStat rowPref rows hne
    have hdue : dueCalls rows =
        batchPairs (groupByUser QueryRow.id rowStat rowPref rows) := by
      rw [dueCalls, husers]
    rw [send_emails_batch, husers]
    simp only [if_neg hgne]
    rw [runBatchCalls_eq]
    have hlen : ((batchPairs (groupByUser QueryRow.id rowStat rowPref
        rows)).enumFrom 0).length =
        (batchPairs (groupByUser QueryRow.id rowStat rowPref rows)).length :=
      List.enumFrom_length
    have hsum := countP_bool_add (fun ic => (outcome ic.1).1)
      ((batchPairs (groupByUser QueryRow.id rowStat rowPref rows)).enumFrom 0)
    have hF : failedCount rows outcome =
        ((batchPairs (groupByUser QueryRow.id rowStat rowPref
          rows)).enumFrom 0).countP (fun ic => !(outcome ic.1).1) := by
      rw [failedCount, hdue]
    have herrlen := length_filterMap_ite (fun ic : Nat × SendCall => (outcome ic.1).1)
      (fun ic => (⟨(ic.2).user_email, (ic.2).news_topic, (outcome ic.1).2⟩ : FailRec))
      ((batchPairs (groupByUser QueryRow.id rowStat rowPref rows)).enumFrom 0)
    refine ⟨?_, ?_, ?_, ?_, ?_⟩
    · simp only [hdue, hF]
      omega
    · simp only [hF]
    · simp only [hF]
      exact herrlen
    · simp only [hF]
    · simp only [hF]
      by_cases h0 : ((batchPairs (groupByUser QueryRow.id rowStat rowPref
          rows)).enumFrom 0).countP (fun ic => !(outcome ic.1).1) = 0
      · simp [h0]
      · simp only [if_neg h0]
        constructor
        · intro hcontra
          exact absurd hcontra (by decide)
        · intro hc
          exact absurd hc h0

/-- Witness for C1: a concrete run (user 1's two topics succeed, user 2's
single topic fails) in which the reported status is `partial_success` and
the counts are 2 sent, 1 failed. -/
theorem send_emails_batch_counts_witness :
    (send_emails_batch (.ok sampleRows)
        (fun i => if i = 1 then (false, some "boom") else (true, none))).1.status
      = (if failedCount sampleRows
            (fun i => if i = 1 then (false, some "boom") else (true, none)) = 0
         then "success" else "partial_success") :=
  (send_emails_batch_counts sampleRows
    (fun i => if i = 1 then (false, some "boom") else (true, none))).2.2.2.1

/-- C7: a selection/query failure short-circuits the whole scheduled batch:
no (user, topic) pair is processed (zero `send_email_to_user` calls), and
the summary is `status = error` with the selection error as its message and
all counts zero. -/
theorem selection_failure_short_circuits (exc : String)
    (outcome : Nat → Bool × Option String) :
    send_emails_batch (.error exc) outcome =
      ({ status := "error",
         message := some ("Database error while fetching users: " ++ exc),
         total_users := 0, emails_sent := 0, emails_failed := 0,
         errors := [] }, 0) := rfl

/-! ## Database state (models.py) and the two query paths -/

/-- One `topicAndSchedule` row (models.py lines 77-104). -/
structure ScheduleRow where
  news_id : Nat
  user_id : Nat
  newsTopic : String
  isCustomTopic : Bool
  deliveryTime : String
  isImmediate : Bool
  isScheduled : Bool
deriving Repr, DecidableEq

/-- A `userDetails` row joined one-to-one with its `userSettings` row
(models.py; the spec's §3 treats UserSetting as one-to-one with User). -/
structure UserRec where
  id : Nat
  email : String
  city : String
  newsApi : String
  weatherApi : String
deriving Repr, DecidableEq

/-- The persisted state the digest pipeline touches. -/
structure DbState where
  users : List UserRec
  sched : List ScheduleRow
deriving Repr, DecidableEq

/-- The database write operations the pipeline can issue: the bulk
`isImmediate` reset (infoStreamDigest.py lines 455-459) and `db.commit()`
(line 461). -/
inductive DbOp where
  | clearImmediate (ids : List Nat)
  | commit
deriving Repr, DecidableEq

/-- The column projection of the scheduled-path query (lines 51-58). -/
def mkQueryRow (u : UserRec) (t : ScheduleRow) : QueryRow :=
  { id := u.id, email := u.email, city := u.city, newsApi := u.newsApi,
    weatherApi := u.weatherApi, newsTopic := t.newsTopic,
    deliveryTime := t.deliveryTime }

/-- The optional `deliveryTime == target_time` filter of lines 68-71: no
target time means every row passes. -/
def timeMatches (target_time : Option String) (deliveryTime : String) : Bool :=
  match target_time with
  | none => true
  | some tt => deliveryTime == tt

/-- The contribution of one schedule row to the scheduled-path query: the
row joined with its user, kept when its delivery time matches the target.
The join condition and the time filter are independent conjuncts of the
same SQL query, so their evaluation order does not affect the result set. -/
def scheduledSelect (users : List UserRec) (target_time : Option String)
    (t : ScheduleRow) : Option QueryRow :=
  if timeMatches target_time t.deliveryTime then
    match users.find? (fun u => u.id == t.user_id) with
    | none => none
    | some u => some (mkQueryRow u t)
  else none

/-- The scheduled-path join and filter (infoStreamDigest.py lines 51-73):
one row per schedule row joined with its user, filtered on
`deliveryTime == target_time` when a target time is given.  `isImmediate`
and `isScheduled` are neither selected nor filtered on. -/
def scheduledQuery (st : DbState) (target_time : Option String) :
    List QueryRow :=
  st.sched.filterMap (scheduledSelect st.users target_time)

/-- infoStreamDigest.py `send_emails_batch` (lines 247-341) run against a
database state.  `qfail` models the selection query raising.  The source
contains no update or commit on this path, so the state is returned
unchanged and the operation log is empty. -/
def send_emails_batch_db (st : DbState) (target_time : Option String)
    (qfail : Option String) (outcome : Nat → Bool × Option String) :
    (BatchSummary × Nat) × DbState × List DbOp :=
  (send_emails_batch
    (match qfail with
     | some e => .error e
     | none => .ok (scheduledQuery st target_time)) outcome,
   st, [])

/-- A state equal to `st` except that the `isImmediate` and `isScheduled`
flags of every schedule row are overwritten arbitrarily. -/
def overwriteFlags (f g : ScheduleRow → Bool) (st : DbState) : DbState :=
  { users := st.users
    sched := st.sched.map (fun t => { t with isImmediate := f t, isScheduled := g t }) }

/-- C4: the scheduled batch path mutates no persisted row whatever the
per-pair outcomes — the final state equals the initial state and no write or
commit operation is issued — and its selection reads neither `isImmediate`
nor `isScheduled`: overwriting both flags arbitrarily on every row leaves
the selection unchanged. -/
theorem scheduled_path_no_mutation (st : DbState) (target_time : Option String)
    (qfail : Option String) (outcome : Nat → Bool × Option String)
    (f g : ScheduleRow → Bool) :
    (send_emails_batch_db st target_time qfail outcome).2.1 = st ∧
    (send_emails_batch_db st target_time qfail outcome).2.2 = [] ∧
    scheduledQuery (overwriteFlags f g st) target_time
      = scheduledQuery st target_time := by
  refine ⟨rfl, rfl, ?_⟩
  rw [scheduledQuery, scheduledQuery, overwriteFlags]
  simp only []
  rw [List.filterMap_map]
  apply List.filterMap_congr
  intro t ht
  show scheduledSelect st.users target_time
      { t with isImmediate := f t, isScheduled := g t }
    = scheduledSelect st.users target_time t
  rfl

/-! ## infoStreamDigest.py: the immediate path (lines 343-494) -/

/-- One row of the immediate-path join (lines 364-380): the seven selected
columns. -/
structure ImmRow where
  id : Nat
  email : String
  city : String
  newsApi : String
  weatherApi : String
  news_id : Nat
  newsTopic : String
deriving Repr, DecidableEq

/-- The non-list fields of a `users_map` entry (lines 396-402). -/
structure ImmStat where
  email : String
  city : String
  news_api_key : String
  weather_api_key : String
deriving Repr, DecidableEq

/-- One `news_preference` entry (lines 404-407). -/
structure ImmPref where
  schedule_id : Nat
  news_topic : String
deriving Repr, DecidableEq

/-- Static fields taken from an immediate-path row (lines 396-402). -/
def immStat (r : ImmRow) : ImmStat :=
  { email := r.email, city := r.city, news_api_key := r.newsApi,
    weather_api_key := r.weatherApi }

/-- Preference entry taken from an immediate-path row (lines 404-407). -/
def immPref (r : ImmRow) : ImmPref :=
  { schedule_id := r.news_id, news_topic := r.newsTopic }

/-- The column projection of the immediate-path query (lines 364-371). -/
def mkImmRow (u : UserRec) (t : ScheduleRow) : ImmRow :=
  { id := u.id, email := u.email, city := u.city, newsApi := u.newsApi,
    weatherApi := u.weatherApi, news_id := t.news_id, newsTopic := t.newsTopic }

/-- One schedule row's contribution to the immediate-path query: kept when
`isImmediate` is true and the row joins with a user. -/
def immediateSelect (users : List UserRec) (t : ScheduleRow) : Option ImmRow :=
  if t.isImmediate then
    match users.find? (fun u => u.id == t.user_id) with
    | none => none
    | some u => some (mkImmRow u t)
  else none

/-- The immediate-path join and filter (lines 364-380): all rows with
`isImmediate == True`, across all users, with no time filter. -/
def immediateQuery (st : DbState) : List ImmRow :=
  st.sched.filterMap (immediateSelect st.users)

/-- One record of the immediate path's `all_errors` list (lines 447-450). -/
structure ImmErr where
  news_topic : String
  error : Option String
deriving Repr, DecidableEq

/-- The result dict of `send_immediate_email` (lines 472-479).  The
empty-due-set dict (lines 383-388) carries only status, message and the two
counts; its missing `total_users` and `errors` keys are embedded as zero and
`[]`. -/
structure ImmResult where
  status : String
  message : String
  total_users : Nat
  emails_sent : Nat
  emails_failed : Nat
  errors : List ImmErr
deriving Repr, DecidableEq

/-- The flattened per-pair loop order of lines 417-451: for each grouped
user, one `send_email_to_user` call per preference. -/
def immPairs (users_map : List (Grouped ImmStat ImmPref)) :
    List (ImmStat × ImmPref) :=
  users_map.flatMap (fun g => g.prefs.map (fun p => (g.stat, p)))

/-- The accumulation of lines 417-451: counts, the `all_errors` list and the
`all_schedule_ids_to_reset` list.  `outcome` is keyed by the pair's schedule
row id (`news_id` is the table's primary key, so each id is attempted at
most once per run). -/
def runImmCalls (outcome : Nat → Bool × Option String) :
    List (ImmStat × ImmPref) → Nat × Nat × List ImmErr × List Nat
  | [] => (0, 0, [], [])
  | p :: rest =>
    let res := runImmCalls outcome rest
    if (outcome (p.2).schedule_id).1 then
      (res.1 + 1, res.2.1, res.2.2.1, (p.2).schedule_id :: res.2.2.2)
    else
      (res.1, res.2.1 + 1,
        ⟨(p.2).news_topic, (outcome (p.2).schedule_id).2⟩ :: res.2.2.1,
        res.2.2.2)

/-- The whole per-pair processing of one immediate run. -/
def immRun (st : DbState) (outcome : Nat → Bool × Option String) :
    Nat × Nat × List ImmErr × List Nat :=
  runImmCalls outcome
    (immPairs (groupByUser ImmRow.id immStat immPref (immediateQuery st)))

/-- The bulk `isImmediate` reset of lines 454-462: issued only when the
reset list is non-empty, as a single update over the collected ids. -/
def applyReset (st : DbState) (ids : List Nat) : DbState :=
  if ids.isEmpty then st
  else
    { users := st.users
      sched := st.sched.map (fun t =>
        if t.news_id ∈ ids then { t with isImmediate := false } else t) }

/-- infoStreamDigest.py `send_immediate_email` (lines 343-494) run against a
database state: query, group, process each pair, bulk-reset the flags of
successfully delivered rows, commit once, derive the status.  Returns the
result dict, the final state, and the write-operation log. -/
def send_immediate_email (st : DbState)
    (outcome : Nat → Bool × Option String) :
    ImmResult × DbState × List DbOp :=
  if (immediateQuery st).isEmpty then
    ({ status := "error",
       message := "User not found or not configured for immediate emails",
       total_users := 0, emails_sent := 0, emails_failed := 0,
       errors := [] }, st, [])
  else
    ({ status :=
        if (immRun st outcome).2.1 = 0 then "success"
        else if 0 < (immRun st outcome).1 then "partial_success"
        else "error",
       message := "Processed "
         ++ toString (groupByUser ImmRow.id immStat immPref
              (immediateQuery st)).length
         ++ " user(s): sent " ++ toString (immRun st outcome).1
         ++ " email(s), " ++ toString (immRun st outcome).2.1 ++ " failed",
       total_users := (groupByUser ImmRow.id immStat immPref
         (immediateQuery st)).length,
       emails_sent := (immRun st outcome).1,
       emails_failed := (immRun st outcome).2.1,
       errors := (immRun st outcome).2.2.1 },
     applyReset st (immRun st outcome).2.2.2,
     if ((immRun st outcome).2.2.2).isEmpty then []
     else [DbOp.clearImmediate (immRun st outcome).2.2.2, DbOp.commit])

lemma runImmCalls_eq (outcome : Nat → Bool × Option String)
    (pairs : List (ImmStat × ImmPref)) :
    runImmCalls outcome pairs =
      (pairs.countP (fun p => (outcome (p.2).schedule_id).1),
       pairs.countP (fun p => !(outcome (p.2).schedule_id).1),
       pairs.filterMap (fun p =>
         if (outcome (p.2).schedule_id).1 then none
         else some ⟨(p.2).news_topic, (outcome (p.2).schedule_id).2⟩),
       pairs.filterMap (fun p =>
         if (outcome (p.2).schedule_id).1 then some (p.2).schedule_id
         else none)) := by
  induction pairs with
  | nil => rfl
  | cons p rest ih =>
    rw [runImmCalls, ih]
    cases h : (outcome (p.2).schedule_id).1 <;>
      simp [List.countP_cons, List.filterMap_cons, h, Nat.add_comm]

lemma mem_flat_prefs {ρ σ π : Type} (key : ρ → Nat) (stat : ρ → σ)
    (pref : ρ → π) (rows : List ρ) (q : π) :
    (∃ g ∈ groupByUser key stat pref rows, q ∈ g.prefs) ↔
      ∃ r ∈ rows, pref r = q := by
  obtain ⟨hkeys, hentries⟩ := groupByUser_spec key stat pref rows
  constructor
  · rintro ⟨g, hg, hq⟩
    obtain ⟨hpref, -⟩ := hentries g hg
    rw [hpref] at hq
    obtain ⟨r, hr, rfl⟩ := List.mem_map.mp hq
    exact ⟨r, (List.mem_filter.mp hr).1, rfl⟩
  · rintro ⟨r, hr, rfl⟩
    have hk : key r ∈ (groupByUser key stat pref rows).map Grouped.key := by
      rw [hkeys, mem_firstSeen]
      exact List.mem_map_of_mem key hr
    obtain ⟨g, hg, hgk⟩ := List.mem_map.mp hk
    refine ⟨g, hg, ?_⟩
    obtain ⟨hpref, -⟩ := hentries g hg
    rw [hpref]
    apply List.mem_map_of_mem
    rw [List.mem_filter]
    exact ⟨hr, by simp [hgk]⟩

lemma mem_immPairs (um : List (Grouped ImmStat ImmPref))
    (pr : ImmStat × ImmPref) :
    pr ∈ immPairs um ↔ ∃ g ∈ um, pr.1 = g.stat ∧ pr.2 ∈ g.prefs := by
  rw [immPairs]
  rw [List.mem_flatMap]
  constructor
  · rintro ⟨g, hg, hpr⟩
    obtain ⟨p, hp, heq⟩ := List.mem_map.mp hpr
    refine ⟨g, hg, ?_, ?_⟩
    · rw [← heq]
    · rw [← heq]
      exact hp
  · rintro ⟨g, hg, h1, h2⟩
    refine ⟨g, hg, ?_⟩
    rcases pr with ⟨s, q⟩
    subst h1
    exact List.mem_map_of_mem _ h2

lemma immPairs_pred_forall (rows : List ImmRow) (B : ImmPref → Bool) :
    (∀ p ∈ immPairs (groupByUser ImmRow.id immStat immPref rows), B p.2) ↔
      ∀ r ∈ rows, B (immPref r) := by
  constructor
  · intro h r hr
    obtain ⟨g, hg, hq⟩ := (mem_flat_prefs ImmRow.id immStat immPref rows
      (immPref r)).mpr ⟨r, hr, rfl⟩
    exact h (g.stat, immPref r) ((mem_immPairs _ _).mpr ⟨g, hg, rfl, hq⟩)
  · intro h p hp
    obtain ⟨g, hg, -, hq⟩ := (mem_immPairs _ _).mp hp
    obtain ⟨r, hr, hpr⟩ := (mem_flat_prefs ImmRow.id immStat immPref rows
      p.2).mp ⟨g, hg, hq⟩
    rw [← hpr]
    exact h r hr

lemma immPairs_pred_exists (rows : List ImmRow) (B : ImmPref → Bool) :
    (∃ p ∈ immPairs (groupByUser ImmRow.id immStat immPref rows), B p.2) ↔
      ∃ r ∈ rows, B (immPref r) := by
  constructor
  · rintro ⟨p, hp, hB⟩
    obtain ⟨g, hg, -, hq⟩ := (mem_immPairs _ _).mp hp
    obtain ⟨r, hr, hpr⟩ := (mem_flat_prefs ImmRow.id immStat immPref rows
      p.2).mp ⟨g, hg, hq⟩
    exact ⟨r, hr, by rw [hpr] ; exact hB⟩
  · rintro ⟨r, hr, hB⟩
    obtain ⟨g, hg, hq⟩ := (mem_flat_prefs ImmRow.id immStat immPref rows
      (immPref r)).mpr ⟨r, hr, rfl⟩
    exact ⟨(g.stat, immPref r), (mem_immPairs _ _).mpr ⟨g, hg, rfl, hq⟩, hB⟩

/-- C3: the immediate path reports `success` when zero pairs failed,
`partial_success` when at least one pair succeeded and at least one failed,
`error` when pairs were attempted and none succeeded, and — distinctly —
`error` with the empty-set message and zero counts when no row with
`isImmediate = true` joined with a user at all. -/
theorem send_immediate_email_status (st : DbState)
    (outcome : Nat → Bool × Option String) :
    ((send_immediate_email st outcome).1.status =
      (if immediateQuery st = [] then "error"
       else if (immediateQuery st).all (fun r => (outcome r.news_id).1)
         then "success"
       else if (immediateQuery st).any (fun r => (outcome r.news_id).1)
         then "partial_success"
       else "error")) ∧
    (immediateQuery st = [] →
      (send_immediate_email st outcome).1 =
        { status := "error",
          message := "User not found or not configured for immediate emails",
          total_users := 0, emails_sent := 0, emails_failed := 0,
          errors := [] }) := by
  by_cases hq : (immediateQuery st).isEmpty
  · have hqe : immediateQuery st = [] := List.isEmpty_iff.mp hq
    rw [send_immediate_email, if_pos hq]
    exact ⟨by simp [hqe], fun _ => rfl⟩
  · have hqe : ¬ immediateQuery st = [] := by
      simpa [List.isEmpty_iff] using hq
    rw [send_immediate_email, if_neg hq]
    refine ⟨?_, fun h => absurd h hqe⟩
    simp only [if_neg hqe]
    rw [immRun, runImmCalls_eq]
    simp only []
    by_cases hall : (immediateQuery st).all (fun r => (outcome r.news_id).1) = true
    · have hzero : (immPairs (groupByUser ImmRow.id immStat immPref
          (immediateQuery st))).countP
            (fun p => !(outcome (p.2).schedule_id).1) = 0 := by
        rw [List.countP_eq_zero]
        intro p hp
        have := (immPairs_pred_forall (immediateQuery st)
          (fun q => (outcome q.schedule_id).1)).mpr
          (fun r hr => List.all_eq_true.mp hall r hr) p hp
        simp [this]
      rw [hzero]
      simp [hall]
    · have hnz : (immPairs (groupByUser ImmRow.id immStat immPref
          (immediateQuery st))).countP
            (fun p => !(outcome (p.2).schedule_id).1) ≠ 0 := by
        intro h0
        apply hall
        rw [List.all_eq_true]
        intro r hr
        have := (immPairs_pred_forall (immediateQuery st)
          (fun q => (outcome q.schedule_id).1)).mp ?_ r hr
        · exact this
        · intro p hp
          have hnot := List.countP_eq_zero.mp h0 p hp
          simpa using hnot
      rw [if_neg hnz]
      rw [if_neg hall]
      by_cases hany : (immediateQuery st).any (fun r => (outcome r.news_id).1) = true
      · have hpos : 0 < (immPairs (groupByUser ImmRow.id immStat immPref
            (immediateQuery st))).countP (fun p => (outcome (p.2).schedule_id).1) := by
          rw [List.countP_pos_iff]
          obtain ⟨r, hr, hB⟩ := List.any_eq_true.mp hany
          obtain ⟨p, hp, hpB⟩ := (immPairs_pred_exists (immediateQuery st)
            (fun q => (outcome q.schedule_id).1)).mpr ⟨r, hr, hB⟩
          exact ⟨p, hp, hpB⟩
        rw [if_pos hpos, if_pos hany]
      · have hneg : ¬ 0 < (immPairs (groupByUser ImmRow.id immStat immPref
            (immediateQuery st))).countP (fun p => (outcome (p.2).schedule_id).1) := by
          intro hpos
          apply hany
          rw [List.any_eq_true]
          obtain ⟨p, hp, hpB⟩ := List.countP_pos_iff.mp hpos
          obtain ⟨r, hr, hB⟩ := (immPairs_pred_exists (immediateQuery st)
            (fun q => (outcome q.schedule_id).1)).mp ⟨p, hp, hpB⟩
          exact ⟨r, hr, hB⟩
        rw [if_neg hneg, if_neg hany]

/-- A state with two immediate rows for user 1 and one non-immediate row. -/
def sampleState : DbState :=
  { users := [{ id := 1, email := "a@x.com", city := "Pune", newsApi := "nk1",
                weatherApi := "wk1" }]
    sched := [{ news_id := 10, user_id := 1, newsTopic := "technology",
                isCustomTopic := false, deliveryTime := "09:00",
                isImmediate := true, isScheduled := true },
              { news_id := 11, user_id := 1, newsTopic := "sports",
                isCustomTopic := false, deliveryTime := "10:00",
                isImmediate := true, isScheduled := false },
              { news_id := 12, user_id := 1, newsTopic := "health",
                isCustomTopic := false, deliveryTime := "11:00",
                isImmediate := false, isScheduled := true }] }

/-- Witness for C3: on a state with no immediate rows, the run reports the
distinct empty-set error with zero counts. -/
theorem send_immediate_email_status_witness :
    (send_immediate_email { users := [], sched := [] }
        (fun _ => (true, none))).1 =
      { status := "error",
        message := "User not found or not configured for immediate emails",
        total_users := 0, emails_sent := 0, emails_failed := 0,
        errors := [] } :=
  (send_immediate_email_status { users := [], sched := [] }
    (fun _ => (true, none))).2 (by rfl)

/-- A schedule row that the immediate pass both selects (flag set, user join
succeeds) and delivers successfully. -/
def immCleared (st : DbState) (outcome : Nat → Bool × Option String)
    (t : ScheduleRow) : Bool :=
  t.isImmediate && (st.users.find? (fun u => u.id == t.user_id)).isSome
    && (outcome t.news_id).1

lemma immCleared_mem_query (st : DbState)
    (outcome : Nat → Bool × Option String) (t : ScheduleRow)
    (ht : t ∈ st.sched) (hc : immCleared st outcome t = true) :
    ∃ r ∈ immediateQuery st, r.news_id = t.news_id := by
  rw [immCleared, Bool.and_eq_true, Bool.and_eq_true] at hc
  obtain ⟨⟨hi, hf⟩, ho⟩ := hc
  obtain ⟨u, hu⟩ := Option.isSome_iff_exists.mp hf
  refine ⟨mkImmRow u t, List.mem_filterMap.mpr ⟨t, ht, ?_⟩, rfl⟩
  rw [immediateSelect, if_pos hi, hu]

lemma mem_resets_iff (st : DbState) (outcome : Nat → Bool × Option String)
    (n : Nat) :
    n ∈ (immRun st outcome).2.2.2 ↔
      ∃ t ∈ st.sched, immCleared st outcome t = true ∧ t.news_id = n := by
  rw [immRun, runImmCalls_eq]
  simp only []
  rw [List.mem_filterMap]
  constructor
  · rintro ⟨p, hp, hif⟩
    by_cases hs : (outcome (p.2).schedule_id).1 = true
    · rw [if_pos hs] at hif
      have hn : (p.2).schedule_id = n := by simpa using hif
      obtain ⟨g, hg, -, hq⟩ := (mem_immPairs _ _).mp hp
      obtain ⟨r, hr, hpr⟩ :=
        (mem_flat_prefs ImmRow.id immStat immPref _ p.2).mp ⟨g, hg, hq⟩
      obtain ⟨t, ht, hsel⟩ := List.mem_filterMap.mp hr
      rw [immediateSelect] at hsel
      by_cases hi : t.isImmediate = true
      · rw [if_pos hi] at hsel
        cases hfind : st.users.find? (fun u => u.id == t.user_id) with
        | none =>
          rw [hfind] at hsel
          exact absurd hsel (by simp)
        | some u =>
          rw [hfind] at hsel
          have hru : r = mkImmRow u t := by
            have := hsel
            simp only [Option.some.injEq] at this
            exact this.symm
          subst hru
          rw [← hpr] at hs hn
          refine ⟨t, ht, ?_, hn⟩
          rw [immCleared, hi, hfind]
          simpa using hs
      · rw [if_neg hi] at hsel
        exact absurd hsel (by simp)
    · rw [if_neg hs] at hif
      exact absurd hif (by simp)
  · rintro ⟨t, ht, hc, rfl⟩
    have hc' := hc
    rw [immCleared, Bool.and_eq_true, Bool.and_eq_true] at hc'
    obtain ⟨⟨hi, hf⟩, ho⟩ := hc'
    obtain ⟨u, hu⟩ := Option.isSome_iff_exists.mp hf
    have hrmem : mkImmRow u t ∈ immediateQuery st := by
      refine List.mem_filterMap.mpr ⟨t, ht, ?_⟩
      rw [immediateSelect, if_pos hi, hu]
    obtain ⟨g, hg, hq⟩ := (mem_flat_prefs ImmRow.id immStat immPref _
      (immPref (mkImmRow u t))).mpr ⟨mkImmRow u t, hrmem, rfl⟩
    refine ⟨(g.stat, immPref (mkImmRow u t)),
      (mem_immPairs _ _).mpr ⟨g, hg, rfl, hq⟩, ?_⟩
    have ho' : (outcome ((immPref (mkImmRow u t)).schedule_id)).1 = true := ho
    rw [if_pos ho']
    rfl

lemma mem_resets_self (st : DbState) (outcome : Nat → Bool × Option String)
    (hids : (st.sched.map ScheduleRow.news_id).Nodup) (t : ScheduleRow)
    (ht : t ∈ st.sched) :
    t.news_id ∈ (immRun st outcome).2.2.2 ↔
      immCleared st outcome t = true := by
  rw [mem_resets_iff]
  constructor
  · rintro ⟨t', ht', hc, hn⟩
    have : t' = t := List.inj_on_of_nodup_map hids ht' ht hn
    rwa [← this]
  · intro hc
    exact ⟨t, ht, hc, rfl⟩

lemma map_clear_id (st : DbState) (outcome : Nat → Bool × Option String)
    (hall : ∀ t ∈ st.sched, immCleared st outcome t = false) :
    st.sched.map (fun t =>
      if immCleared st outcome t then { t with isImmediate := false } else t)
      = st.sched := by
  conv_rhs => rw [← List.map_id st.sched]
  apply List.map_congr_left
  intro t ht
  rw [hall t ht]
  simp

/-- C2: after one immediate run, every selected schedule row whose delivery
succeeded has `isImmediate` cleared and every other row — failed or not
selected — is unchanged; the clearing happens as one bulk update over the
collected reset-list followed by a single commit issued after all pairs are
processed, and when nothing succeeded no write or commit is issued at all.
The hypothesis is the table's primary-key constraint: `news_id` values are
distinct. -/
theorem send_immediate_email_flag_reset (st : DbState)
    (outcome : Nat → Bool × Option String)
    (hids : (st.sched.map ScheduleRow.news_id).Nodup) :
    (send_immediate_email st outcome).2.1.users = st.users ∧
    (send_immediate_email st outcome).2.1.sched =
      st.sched.map (fun t =>
        if immCleared st outcome t then { t with isImmediate := false }
        else t) ∧
    ((∀ t ∈ st.sched, immCleared st outcome t = false) →
      (send_immediate_email st outcome).2 = (st, [])) ∧
    ((∃ t ∈ st.sched, immCleared st outcome t = true) →
      ∃ ids, (send_immediate_email st outcome).2.2 =
          [DbOp.clearImmediate ids, DbOp.commit] ∧
        ∀ n, n ∈ ids ↔
          ∃ t ∈ st.sched, immCleared st outcome t = true ∧ t.news_id = n) := by
  by_cases hq : (immediateQuery st).isEmpty
  · have hqe : immediateQuery st = [] := List.isEmpty_iff.mp hq
    have hall : ∀ t ∈ st.sched, immCleared st outcome t = false := by
      intro t ht
      by_contra hc
      rw [Bool.not_eq_false] at hc
      obtain ⟨r, hr, -⟩ := immCleared_mem_query st outcome t ht hc
      rw [hqe] at hr
      exact absurd hr (List.not_mem_nil r)
    rw [send_immediate_email, if_pos hq]
    refine ⟨rfl, ?_, fun _ => rfl, ?_⟩
    · exact (map_clear_id st outcome hall).symm
    · rintro ⟨t, ht, hc⟩
      rw [hall t ht] at hc
      exact absurd hc (by simp)
  · rw [send_immediate_email, if_neg hq]
    by_cases hres : ((immRun st outcome).2.2.2).isEmpty
    · have hre : (immRun st outcome).2.2.2 = [] := List.isEmpty_iff.mp hres
      have hall : ∀ t ∈ st.sched, immCleared st outcome t = false := by
        intro t ht
        by_contra hc
        rw [Bool.not_eq_false] at hc
        have : t.news_id ∈ (immRun st outcome).2.2.2 :=
          (mem_resets_iff st outcome t.news_id).mpr ⟨t, ht, hc, rfl⟩
        rw [hre] at this
        exact absurd this (List.not_mem_nil _)
      refine ⟨?_, ?_, ?_, ?_⟩
      · simp only [applyReset, if_pos hres]
      · simp only [applyReset, if_pos hres]
        exact (map_clear_id st outcome hall).symm
      · intro _
        simp only [applyReset, if_pos hres]
      · rintro ⟨t, ht, hc⟩
        rw [hall t ht] at hc
        exact absurd hc (by simp)
    · have hrne : (immRun st outcome).2.2.2 ≠ [] := by
        simpa [List.isEmpty_iff] using hres
      refine ⟨?_, ?_, ?_, ?_⟩
      · simp only [applyReset, if_neg hres]
      · simp only [applyReset, if_neg hres]
        apply List.map_congr_left
        intro t ht
        by_cases hc : immCleared st outcome t = true
        · rw [if_pos ((mem_resets_self st outcome hids t ht).mpr hc), if_pos hc]
        · rw [if_neg (fun hmem =>
            hc ((mem_resets_self st outcome hids t ht).mp hmem)), if_neg hc]
      · intro hall
        exfalso
        obtain ⟨n, hn⟩ := List.exists_mem_of_ne_nil _ hrne
        obtain ⟨t, ht, hc, -⟩ := (mem_resets_iff st outcome n).mp hn
        rw [hall t ht] at hc
        exact absurd hc (by simp)
      · intro _
        refine ⟨(immRun st outcome).2.2.2, by rw [if_neg hres], ?_⟩
        intro n
        exact mem_resets_iff st outcome n

/-- Witness for C2: on `sampleState` (distinct `news_id`s) with row 11
failing, the final schedule table has row 10 cleared, row 11 still flagged
and row 12 untouched. -/
theorem send_immediate_email_flag_reset_witness :
    (send_immediate_email sampleState
        (fun n => if n = 11 then (false, some "boom") else (true, none))).2.1.sched
      = sampleState.sched.map (fun t =>
          if immCleared sampleState
              (fun n => if n = 11 then (false, some "boom") else (true, none)) t
          then { t with isImmediate := false } else t) :=
  (send_immediate_email_flag_reset sampleState
    (fun n => if n = 11 then (false, some "boom") else (true, none))
    (by decide)).2.1

end InfoStream
